import Mathlib

/-!
Verification of the cert-exporter periodic checker core.

Shallow embedding of the periodic discovery-filter-resolve-export loop of
`src/checkers/periodicSecretChecker.go`, `src/checkers/periodicConfigMapChecker.go`
and `src/exporters/configMapExporter.go`.  Go maps are embedded as association
lists with replace-or-append insertion; the cluster API, the glob matcher
(`filepath.Match`) and the certificate decoder are external collaborators and
appear as function parameters bundled in `ClusterEnv`; fallible calls return
`Except Unit`.  A tick is embedded as the list of exporter calls it performs
together with the number of `metrics.ErrorTotal.Inc()` increments.
-/

namespace CertExporter

/-- Go map lookup over an association list: first matching key wins. -/
def goLookup {κ α : Type} [DecidableEq κ] : List (κ × α) → κ → Option α
  | [], _ => none
  | (k', v) :: rest, k => if k' = k then some v else goLookup rest k

/-- Go map assignment `m[k] = v`: replace the existing binding or append a new one. -/
def goInsert {κ α : Type} [DecidableEq κ] : List (κ × α) → κ → α → List (κ × α)
  | [], k, v => [(k, v)]
  | (k', v') :: rest, k, v =>
    if k' = k then (k, v) :: rest else (k', v') :: goInsert rest k v

/-- Go map indexing with the string zero value as default, as in `labels["serviceline"]`. -/
def goLookupD (m : List (String × String)) (k : String) : String :=
  (goLookup m k).getD ""

/-- Tail of `path.Ext` from Go's `path` package: walk the reversed character list,
stopping at a slash; on the first dot return the suffix from that dot on. -/
def pathExtRev : List Char → List Char → Option (List Char)
  | [], _ => none
  | c :: rest, acc =>
    if c = '/' then none
    else if c = '.' then some (c :: acc)
    else pathExtRev rest (c :: acc)

/-- Go `path.Ext`: the suffix of the final slash-separated element beginning at its
last dot, or the empty string when there is no dot. -/
def pathExt (s : String) : String :=
  match pathExtRev s.data.reverse [] with
  | none => ""
  | some cs => String.mk cs

/-- Go `strings.TrimSuffix`: remove the suffix when present, otherwise return the
string unchanged. -/
def trimSuffix (s suffix : String) : String :=
  if s.endsWith suffix then s.dropRight suffix.length else s

/-- True exactly when an `Except Unit` computation failed. -/
def isErrE {α : Type} : Except Unit α → Bool
  | .error _ => true
  | .ok _ => false

/-- A Kubernetes Secret as the checker consumes it: metadata plus the `Data` map. -/
structure GoSecret where
  name : String
  ns : String
  secType : String
  labels : List (String × String)
  annotations : List (String × String)
  data : List (String × String)
  deriving DecidableEq

/-- A Kubernetes ConfigMap as the checker consumes it: metadata plus the `Data`
(text) and `BinaryData` maps. -/
structure GoConfigMap where
  name : String
  ns : String
  annotations : List (String × String)
  data : List (String × String)
  binaryData : List (String × String)
  deriving DecidableEq

/-- One decoded certificate as produced by `secondsToExpiryFromCertAsBytes`
(the decoder is an external collaborator of this core). -/
structure CertMetric where
  issuer : String
  cn : String
  durationUntilExpiry : Int
  notAfter : Int
  deriving DecidableEq

/-- External collaborators of the checker core: the cluster list/get API, the
glob matcher `filepath.Match` (which can fail on a malformed pattern) and the
certificate decoder invoked inside `ExportMetrics`. -/
structure ClusterEnv where
  listSecrets : String → Option String → Except Unit (List GoSecret)
  listConfigMaps : String → Option String → Except Unit (List GoConfigMap)
  getSecret : String → String → Except Unit GoSecret
  globMatch : String → String → Except Unit Bool
  decode : String → String → Except Unit (List CertMetric)

/-- Embedding of `getPasswordFromSecret` (periodicSecretChecker.go, lines 49-61):
fetch the named secret; an API error or a missing key is an error, otherwise the
value under `passwordKey` is returned. -/
def getPasswordFromSecret (env : ClusterEnv) (ns secretName passwordKey : String) :
    Except Unit String :=
  match env.getSecret ns secretName with
  | .error e => .error e
  | .ok secret =>
    match goLookup secret.data passwordKey with
    | none => .error ()
    | some password => .ok password

/-- A Go call site `password, err := getPasswordFromSecret(...)` keeps the zero
value `""` for the password when the call errors. -/
def passwordOrEmpty (r : Except Unit String) : String :=
  match r with
  | .error _ => ""
  | .ok p => p

/-- Embedding of the password resolution performed at the export site of the
Secret checker (periodicSecretChecker.go, lines 182-202): stage 1 reads key
`"password"` of the same secret; if the accumulated password is still empty,
stage 2 reads key `"<entry without extension>.password"` of the sibling secret
`"<name>-password"`; if still empty, stage 3 reads key `"<entry>.password"`
of that sibling. -/
def resolveSecretPassword (env : ClusterEnv) (ns secretName entryName : String) : String :=
  let password := passwordOrEmpty (getPasswordFromSecret env ns secretName "password")
  let passwordKey := trimSuffix entryName (pathExt entryName) ++ ".password"
  let password :=
    if password == "" then
      passwordOrEmpty (getPasswordFromSecret env ns (secretName ++ "-password") passwordKey)
    else password
  if password == "" then
    passwordOrEmpty (getPasswordFromSecret env ns (secretName ++ "-password") (entryName ++ ".password"))
  else password

/-- Embedding of the password resolution performed at the export site of the
ConfigMap checker (periodicConfigMapChecker.go, lines 158-171): only the two
sibling-secret stages, against `"<name>-password"`. -/
def resolveConfigMapPassword (env : ClusterEnv) (ns configMapName entryName : String) : String :=
  let passwordKey := trimSuffix entryName (pathExt entryName) ++ ".password"
  let password :=
    passwordOrEmpty (getPasswordFromSecret env ns (configMapName ++ "-password") passwordKey)
  if password == "" then
    passwordOrEmpty (getPasswordFromSecret env ns (configMapName ++ "-password") (entryName ++ ".password"))
  else password

/-- The four Prometheus gauge-vector families the two exporters write to. -/
inductive MetricFamily where
  | cmExpiry
  | cmNotAfter
  | secExpiry
  | secNotAfter
  deriving DecidableEq

/-- The label tuple of one published series, in the order of `WithLabelValues`:
key name, issuer CN, subject CN, resource name, resource namespace, serviceline. -/
structure SeriesTuple where
  keyName : String
  issuer : String
  cn : String
  resName : String
  resNs : String
  serviceline : String
  deriving DecidableEq

/-- One `WithLabelValues(...).Set(value)` call. -/
structure GaugeWrite where
  fam : MetricFamily
  tuple : SeriesTuple
  value : Int
  deriving DecidableEq

/-- The export loop shared by both exporter flavors: for each decoded certificate,
one expiry-seconds write followed by one not-after write, into the given pair of
metric families. -/
def exportWrites (famE famN : MetricFamily) (keyName resName resNs serviceline : String)
    (metricCollection : List CertMetric) : List GaugeWrite :=
  metricCollection.foldl (fun acc metric =>
    acc ++ [⟨famE, ⟨keyName, metric.issuer, metric.cn, resName, resNs, serviceline⟩,
              metric.durationUntilExpiry⟩,
            ⟨famN, ⟨keyName, metric.issuer, metric.cn, resName, resNs, serviceline⟩,
              metric.notAfter⟩]) []

/-- Embedding of `ConfigMapExporter.ExportMetrics` (configMapExporter.go, lines
12-26): decode the bytes with the password; on decoder failure return the error
having written nothing; on success read `labels["serviceline"]` and set the two
ConfigMap gauges per decoded certificate. -/
def configMapExportMetrics (decode : String → String → Except Unit (List CertMetric))
    (bytes keyName configMapName configMapNamespace password : String)
    (labels : List (String × String)) : Except Unit (List GaugeWrite) :=
  match decode bytes password with
  | .error e => .error e
  | .ok metricCollection =>
    let serviceline := goLookupD labels "serviceline"
    .ok (exportWrites .cmExpiry .cmNotAfter keyName configMapName configMapNamespace
          serviceline metricCollection)

/-- Modelled from the spec: `SecretExporter.ExportMetrics`
(src/exporters/secretExporter.go is not under src/).  Per sections 4.4 and 9 of
the spec it publishes the same two gauges per decoded certificate as the
ConfigMap flavor, into the Secret metric families, with a "serviceline" label
taken from the resource labels. -/
def secretExportMetrics (decode : String → String → Except Unit (List CertMetric))
    (bytes keyName secretName secretNamespace password : String)
    (labels : List (String × String)) : Except Unit (List GaugeWrite) :=
  match decode bytes password with
  | .error e => .error e
  | .ok metricCollection =>
    let serviceline := goLookupD labels "serviceline"
    .ok (exportWrites .secExpiry .secNotAfter keyName secretName secretNamespace
          serviceline metricCollection)

/-- The metrics sink: for each family and label tuple, the current gauge value. -/
def MetricState : Type := List ((MetricFamily × SeriesTuple) × Int)

/-- Prometheus `WithLabelValues(...).Set`: last write wins per label tuple. -/
def applyWrite (st : MetricState) (w : GaugeWrite) : MetricState :=
  goInsert st (w.fam, w.tuple) w.value

/-- Effect of one `ExportMetrics` call on the sink: an erroring call writes
nothing, a successful call performs its writes in order. -/
def applyExport (st : MetricState) (r : Except Unit (List GaugeWrite)) : MetricState :=
  match r with
  | .error _ => st
  | .ok ws => ws.foldl applyWrite st

/-- One call the checker loop makes on its exporter during a tick. -/
inductive ExpCall where
  | reset
  | exportSec (bytes keyName resName ns password : String) (labels : List (String × String))
  | exportCM (bytes keyName resName ns password : String)
  deriving DecidableEq

/-- True exactly for the `ResetMetrics` call. -/
def isReset : ExpCall → Bool
  | .reset => true
  | _ => false

/-- A Go loop body that appends items and accumulates error-counter increments,
run over a list. -/
def runAll {α β : Type} (f : α → List β × Nat) (l : List α) : List β × Nat :=
  l.foldl (fun acc x => (acc.1 ++ (f x).1, acc.2 + (f x).2)) ([], 0)

/-- Outcome of one list call: an error contributes no items and one error-counter
increment; a success contributes its items. -/
def listOutcome {σ : Type} (r : Except Unit (List σ)) : List σ × Nat :=
  match r with
  | .error _ => ([], 1)
  | .ok items => (items, 0)

/-- The (namespace, label selector) combinations a tick issues list calls for:
one call per selector and namespace when selectors are configured, otherwise one
unfiltered call per namespace. -/
def listCombos (namespaces labelSelectors : List String) : List (String × Option String) :=
  namespaces.flatMap (fun ns =>
    if labelSelectors.length > 0 then labelSelectors.map (fun sel => (ns, some sel))
    else [(ns, none)])

/-- Configuration fields of `PeriodicSecretChecker` that drive a tick. -/
structure SecretCheckerCfg where
  labelSelectors : List String
  annotationSelectors : List String
  namespaces : List String
  includeSecretsDataGlobs : List String
  excludeSecretsDataGlobs : List String
  includeSecretsTypes : List String

/-- Configuration fields of `PeriodicConfigMapChecker` that drive a tick. -/
structure ConfigMapCheckerCfg where
  labelSelectors : List String
  annotationSelectors : List String
  namespaces : List String
  includeConfigMapsDataGlobs : List String
  excludeConfigMapsDataGlobs : List String

/-- Embedding of the secret-gathering loop (periodicSecretChecker.go, lines
85-110): per namespace, one list call per selector when selectors are
configured, else one unfiltered call; failures increment the error counter and
contribute no items. -/
def collectSecrets (env : ClusterEnv) (cfg : SecretCheckerCfg) : List GoSecret × Nat :=
  runAll (fun ns =>
    if cfg.labelSelectors.length > 0 then
      runAll (fun sel => listOutcome (env.listSecrets ns (some sel))) cfg.labelSelectors
    else
      listOutcome (env.listSecrets ns none)) cfg.namespaces

/-- Embedding of the configMap-gathering loop (periodicConfigMapChecker.go,
lines 69-94). -/
def collectConfigMaps (env : ClusterEnv) (cfg : ConfigMapCheckerCfg) :
    List GoConfigMap × Nat :=
  runAll (fun ns =>
    if cfg.labelSelectors.length > 0 then
      runAll (fun sel => listOutcome (env.listConfigMaps ns (some sel))) cfg.labelSelectors
    else
      listOutcome (env.listConfigMaps ns none)) cfg.namespaces

/-- Embedding of one glob-matching loop (lines 153-164 and 166-177 of the Secret
checker, 129-140 and 142-153 of the ConfigMap checker): `filepath.Match` per
pattern in order; a match breaks with `true`; a pattern error increments the
error counter, leaves the flag `false` and continues; the flag starts `false`. -/
def evalGlobs (m : String → String → Except Unit Bool) :
    List String → String → Bool × Nat
  | [], _ => (false, 0)
  | glob :: globs, name =>
    match m glob name with
    | .error _ =>
      let r := evalGlobs m globs name
      (r.1, r.2 + 1)
    | .ok true => (true, 0)
    | .ok false => evalGlobs m globs name

/-- Embedding of the type filter of the Secret checker (lines 113-129): with a
non-empty `includeSecretsTypes` the secret passes only when its type equals one
of the listed types; an empty list passes everything. -/
def typeFilter (includeSecretsTypes : List String) (secType : String) : Bool :=
  if includeSecretsTypes.length > 0 then
    includeSecretsTypes.any (fun t => secType == t)
  else true

/-- Embedding of the annotation filter shared by both checkers (lines 133-147 of
the Secret checker, 100-114 of the ConfigMap checker): with non-empty selectors
the resource passes when at least one selector string occurs as an annotation
key; the value is never read; an empty selector list passes everything. -/
def annotationFilter (selectors : List String) (annotations : List (String × String)) : Bool :=
  if selectors.length > 0 then
    selectors.any (fun sel => (goLookup annotations sel).isSome)
  else true

/-- Embedding of the per-entry body of the Secret checker (lines 150-212):
evaluate the include and exclude glob lists; when included and not excluded,
resolve the password and call `ExportMetrics`, counting a decoder failure on
the error counter. -/
def processSecretEntry (env : ClusterEnv) (cfg : SecretCheckerCfg) (s : GoSecret)
    (name bytes : String) : List ExpCall × Nat :=
  let inc := evalGlobs env.globMatch cfg.includeSecretsDataGlobs name
  let exc := evalGlobs env.globMatch cfg.excludeSecretsDataGlobs name
  if inc.1 && !exc.1 then
    let password := resolveSecretPassword env s.ns s.name name
    let exportErrs : Nat := if isErrE (env.decode bytes password) then 1 else 0
    ([.exportSec bytes name s.name s.ns password s.labels], inc.2 + exc.2 + exportErrs)
  else
    ([], inc.2 + exc.2)

/-- Embedding of the per-secret body of the Secret checker (lines 112-213):
type filter, then annotation filter, then the per-entry body over `Data`. -/
def processSecret (env : ClusterEnv) (cfg : SecretCheckerCfg) (s : GoSecret) :
    List ExpCall × Nat :=
  if !(typeFilter cfg.includeSecretsTypes s.secType) then ([], 0)
  else if !(annotationFilter cfg.annotationSelectors s.annotations) then ([], 0)
  else runAll (fun kv => processSecretEntry env cfg s kv.1 kv.2) s.data

/-- Embedding of the ConfigMap data merge (periodicConfigMapChecker.go, lines
117-124): copy the text `Data` map into a fresh map, then the `BinaryData` map
over it, later assignments overwriting earlier ones. -/
def buildCombinedMap (text binary : List (String × String)) : List (String × String) :=
  binary.foldl (fun m kv => goInsert m kv.1 kv.2)
    (text.foldl (fun m kv => goInsert m kv.1 kv.2) [])

/-- Embedding of the per-entry body of the ConfigMap checker (lines 126-181);
the export call at line 173 passes no labels argument. -/
def processConfigMapEntry (env : ClusterEnv) (cfg : ConfigMapCheckerCfg) (cm : GoConfigMap)
    (name bytes : String) : List ExpCall × Nat :=
  let inc := evalGlobs env.globMatch cfg.includeConfigMapsDataGlobs name
  let exc := evalGlobs env.globMatch cfg.excludeConfigMapsDataGlobs name
  if inc.1 && !exc.1 then
    let password := resolveConfigMapPassword env cm.ns cm.name name
    let exportErrs : Nat := if isErrE (env.decode bytes password) then 1 else 0
    ([.exportCM bytes name cm.name cm.ns password], inc.2 + exc.2 + exportErrs)
  else
    ([], inc.2 + exc.2)

/-- Embedding of the per-configMap body of the ConfigMap checker (lines 96-182):
annotation filter, then the per-entry body over the merged data map. -/
def processConfigMap (env : ClusterEnv) (cfg : ConfigMapCheckerCfg) (cm : GoConfigMap) :
    List ExpCall × Nat :=
  if !(annotationFilter cfg.annotationSelectors cm.annotations) then ([], 0)
  else runAll (fun kv => processConfigMapEntry env cfg cm kv.1 kv.2)
         (buildCombinedMap cm.data cm.binaryData)

/-- One tick of the Secret checker loop (lines 80-216): `ResetMetrics` first,
then gather, then process every gathered secret; the result is the exporter-call
trace and the total of error-counter increments. -/
def secretTick (env : ClusterEnv) (cfg : SecretCheckerCfg) : List ExpCall × Nat :=
  let collected := collectSecrets env cfg
  let body := runAll (processSecret env cfg) collected.1
  (ExpCall.reset :: body.1, collected.2 + body.2)

/-- One tick of the ConfigMap checker loop (lines 64-185). -/
def configMapTick (env : ClusterEnv) (cfg : ConfigMapCheckerCfg) : List ExpCall × Nat :=
  let collected := collectConfigMaps env cfg
  let body := runAll (processConfigMap env cfg) collected.1
  (ExpCall.reset :: body.1, collected.2 + body.2)

/-- Spec-side helper for the password-precedence claim: the first non-empty
string in the list, or the empty string. -/
def firstNonEmpty : List String → String
  | [] => ""
  | s :: rest => if s == "" then firstNonEmpty rest else s

/-- Stage 1 of password resolution: key "password" of the secret itself. -/
def stageSameSecret (env : ClusterEnv) (ns resName : String) : String :=
  passwordOrEmpty (getPasswordFromSecret env ns resName "password")

/-- Stage 2 of password resolution: key "<entry without extension>.password" of
the sibling secret "<name>-password". -/
def stageSiblingBase (env : ClusterEnv) (ns resName entryName : String) : String :=
  passwordOrEmpty (getPasswordFromSecret env ns (resName ++ "-password")
    (trimSuffix entryName (pathExt entryName) ++ ".password"))

/-- Stage 3 of password resolution: key "<entry>.password" of the sibling secret
"<name>-password". -/
def stageSiblingFull (env : ClusterEnv) (ns resName entryName : String) : String :=
  passwordOrEmpty (getPasswordFromSecret env ns (resName ++ "-password")
    (entryName ++ ".password"))

/-- Renaming of a ConfigMap-family gauge write into the corresponding
Secret-family write, for comparing the two exporter flavors. -/
def relabelToSecret (w : GaugeWrite) : GaugeWrite :=
  { w with fam := match w.fam with
      | .cmExpiry => .secExpiry
      | .cmNotAfter => .secNotAfter
      | f => f }

/-- Concrete secret fixture: labelled, annotated, with a certificate entry and a
present-but-empty "password" entry. -/
def witSecret : GoSecret :=
  ⟨"tls1", "default", "Opaque", [("serviceline", "payments")],
   [("cert-exporter.io/watch", "true")],
   [("tls.crt", "CERTBYTES"), ("password", "")]⟩

/-- Concrete sibling password secret fixture for `witSecret`. -/
def witSiblingSecret : GoSecret :=
  ⟨"tls1-password", "default", "Opaque", [], [], [("tls.password", "pw1")]⟩

/-- Concrete secret fixture with no annotations. -/
def witSecretNoAnn : GoSecret :=
  ⟨"plain", "default", "Opaque", [], [], [("tls.crt", "B")]⟩

/-- Concrete configMap fixture with a key in both the text and the binary map. -/
def witCM : GoConfigMap :=
  ⟨"cm1", "default", [], [("a.crt", "T")], [("a.crt", "B")]⟩

/-- Concrete configMap fixture with no annotations. -/
def witCMNoAnn : GoConfigMap :=
  ⟨"cmplain", "default", [], [("a.crt", "T")], []⟩

/-- Concrete environment: the two secret fixtures, an equality glob matcher and
a decoder yielding one certificate. -/
def witEnv : ClusterEnv where
  listSecrets := fun _ _ => Except.ok [witSecret]
  listConfigMaps := fun _ _ => Except.ok [witCM]
  getSecret := fun ns name =>
    if ns == "default" && name == "tls1" then Except.ok witSecret
    else if ns == "default" && name == "tls1-password" then Except.ok witSiblingSecret
    else Except.error ()
  globMatch := fun glob name => Except.ok (glob == name)
  decode := fun _ _ => Except.ok [⟨"issuerX", "subjectX", 100, 200⟩]

/-- Concrete environment in which every collaborator call fails. -/
def witErrEnv : ClusterEnv where
  listSecrets := fun _ _ => Except.error ()
  listConfigMaps := fun _ _ => Except.error ()
  getSecret := fun _ _ => Except.error ()
  globMatch := fun _ _ => Except.error ()
  decode := fun _ _ => Except.error ()

/-- Secret checker configuration with an empty include-glob list. -/
def witSecretCfgNoInc : SecretCheckerCfg := ⟨[], [], ["default"], [], [], []⟩

/-- ConfigMap checker configuration with an empty include-glob list. -/
def witCMCfgNoInc : ConfigMapCheckerCfg := ⟨[], [], ["default"], [], []⟩

/-- Secret checker configuration with an annotation selector configured. -/
def witSecretCfgAnn : SecretCheckerCfg :=
  ⟨[], ["cert-exporter.io/watch"], ["default"], ["tls.crt"], [], []⟩

/-- ConfigMap checker configuration with an annotation selector configured. -/
def witCMCfgAnn : ConfigMapCheckerCfg :=
  ⟨[], ["cert-exporter.io/watch"], ["default"], ["a.crt"], []⟩

theorem runAll_foldl {α β : Type} (f : α → List β × Nat) (l : List α) :
    ∀ (b : List β) (n : Nat),
      l.foldl (fun acc x => (acc.1 ++ (f x).1, acc.2 + (f x).2)) (b, n)
        = (b ++ (l.map fun x => (f x).1).flatten, n + (l.map fun x => (f x).2).sum) := by
  induction l with
  | nil => intro b n; simp
  | cons x xs ih =>
    intro b n
    simp only [List.foldl_cons, List.map_cons, List.flatten_cons, List.sum_cons]
    rw [ih]
    simp [List.append_assoc, Nat.add_assoc]

theorem runAll_eq {α β : Type} (f : α → List β × Nat) (l : List α) :
    runAll f l
      = ((l.map fun x => (f x).1).flatten, (l.map fun x => (f x).2).sum) := by
  unfold runAll
  rw [runAll_foldl]
  simp

theorem mem_runAll {α β : Type} (f : α → List β × Nat) (l : List α) (e : β) :
    e ∈ (runAll f l).1 ↔ ∃ x ∈ l, e ∈ (f x).1 := by
  rw [runAll_eq]
  simp [List.mem_flatten]

theorem goLookup_goInsert_self {κ α : Type} [DecidableEq κ]
    (m : List (κ × α)) (k : κ) (v : α) :
    goLookup (goInsert m k v) k = some v := by
  induction m with
  | nil => simp [goInsert, goLookup]
  | cons kv rest ih =>
    obtain ⟨k', v'⟩ := kv
    by_cases h : k' = k <;> simp [goInsert, goLookup, h, ih]

theorem goLookup_goInsert_ne {κ α : Type} [DecidableEq κ]
    (m : List (κ × α)) (k k' : κ) (v : α) (hne : k ≠ k') :
    goLookup (goInsert m k v) k' = goLookup m k' := by
  induction m with
  | nil => simp [goInsert, goLookup, hne]
  | cons kv rest ih =>
    obtain ⟨k0, v0⟩ := kv
    by_cases h : k0 = k <;> simp [goInsert, goLookup, h, hne, ih]

theorem goInsert_goInsert_self {κ α : Type} [DecidableEq κ]
    (m : List (κ × α)) (k : κ) (v : α) :
    goInsert (goInsert m k v) k v = goInsert m k v := by
  induction m with
  | nil => simp [goInsert]
  | cons kv rest ih =>
    obtain ⟨k0, v0⟩ := kv
    by_cases h : k0 = k <;> simp [goInsert, h, ih]

theorem goLookup_foldl_goInsert_notMem {κ α : Type} [DecidableEq κ]
    (l : List (κ × α)) :
    ∀ (m : List (κ × α)) (k : κ), k ∉ l.map Prod.fst →
      goLookup (l.foldl (fun m kv => goInsert m kv.1 kv.2) m) k = goLookup m k := by
  induction l with
  | nil => intro m k _; rfl
  | cons kv rest ih =>
    intro m k hk
    obtain ⟨k0, v0⟩ := kv
    simp only [List.map_cons, List.mem_cons, not_or] at hk
    simp only [List.foldl_cons]
    rw [ih _ k hk.2, goLookup_goInsert_ne _ _ _ _ (fun h => hk.1 h.symm)]

theorem goLookup_foldl_goInsert {κ α : Type} [DecidableEq κ]
    (l : List (κ × α)) :
    ∀ (m : List (κ × α)) (k : κ) (v : α), (l.map Prod.fst).Nodup →
      goLookup l k = some v →
      goLookup (l.foldl (fun m kv => goInsert m kv.1 kv.2) m) k = some v := by
  induction l with
  | nil => intro m k v _ h; simp [goLookup] at h
  | cons kv rest ih =>
    intro m k v hnd hl
    obtain ⟨k0, v0⟩ := kv
    simp only [List.map_cons, List.nodup_cons] at hnd
    simp only [List.foldl_cons]
    by_cases h : k0 = k
    · subst h
      simp only [goLookup, if_pos rfl] at hl
      rw [goLookup_foldl_goInsert_notMem rest _ _ hnd.1,
        goLookup_goInsert_self]
      exact congrArg some (Option.some.inj hl)
    · simp only [goLookup, if_neg h] at hl
      exact ih _ k v hnd.2 hl

theorem evalGlobs_fst_iff (m : String → String → Except Unit Bool)
    (globs : List String) (name : String) :
    (evalGlobs m globs name).1 = true ↔ ∃ g ∈ globs, m g name = .ok true := by
  induction globs with
  | nil => simp [evalGlobs]
  | cons g gs ih =>
    cases h : m g name with
    | error e => simp [evalGlobs, h, ih]
    | ok b =>
      cases b with
      | true => simp [evalGlobs, h]
      | false => simp [evalGlobs, h, ih]

theorem foldl_append_eq_flatMap {α β : Type} (f : α → List β) (l : List α) :
    ∀ (b : List β),
      l.foldl (fun acc x => acc ++ f x) b = b ++ l.flatMap f := by
  induction l with
  | nil => intro b; simp
  | cons x xs ih =>
    intro b
    simp only [List.foldl_cons, List.flatMap_cons]
    rw [ih]
    simp [List.append_assoc]

theorem exportWrites_eq (famE famN : MetricFamily)
    (keyName resName resNs serviceline : String) (ms : List CertMetric) :
    exportWrites famE famN keyName resName resNs serviceline ms
      = ms.flatMap (fun metric =>
          [⟨famE, ⟨keyName, metric.issuer, metric.cn, resName, resNs, serviceline⟩,
             metric.durationUntilExpiry⟩,
           ⟨famN, ⟨keyName, metric.issuer, metric.cn, resName, resNs, serviceline⟩,
             metric.notAfter⟩]) := by
  unfold exportWrites
  rw [foldl_append_eq_flatMap]
  simp

theorem exportWrites_length (famE famN : MetricFamily)
    (keyName resName resNs serviceline : String) (ms : List CertMetric) :
    (exportWrites famE famN keyName resName resNs serviceline ms).length
      = 2 * ms.length := by
  rw [exportWrites_eq]
  induction ms with
  | nil => simp
  | cons x xs ih =>
    simp only [List.flatMap_cons, List.length_append, List.length_cons, List.length_nil]
    rw [ih]
    omega

theorem serviceline_of_mem_exportWrites (famE famN : MetricFamily)
    (keyName resName resNs serviceline : String) (ms : List CertMetric)
    (w : GaugeWrite) (hw : w ∈ exportWrites famE famN keyName resName resNs serviceline ms) :
    w.tuple.serviceline = serviceline := by
  rw [exportWrites_eq] at hw
  simp only [List.mem_flatMap, List.mem_cons, List.not_mem_nil, or_false] at hw
  obtain ⟨metric, _, h | h⟩ := hw <;> subst h <;> rfl

theorem not_isReset_processSecretEntry (env : ClusterEnv) (cfg : SecretCheckerCfg)
    (s : GoSecret) (name bytes : String) (e : ExpCall)
    (he : e ∈ (processSecretEntry env cfg s name bytes).1) : isReset e = false := by
  unfold processSecretEntry at he
  by_cases h : (evalGlobs env.globMatch cfg.includeSecretsDataGlobs name).1
      && !(evalGlobs env.globMatch cfg.excludeSecretsDataGlobs name).1
  · simp only [h, if_true, List.mem_singleton] at he
    subst he
    rfl
  · simp [h] at he

theorem not_isReset_processSecret (env : ClusterEnv) (cfg : SecretCheckerCfg)
    (s : GoSecret) (e : ExpCall) (he : e ∈ (processSecret env cfg s).1) :
    isReset e = false := by
  unfold processSecret at he
  split at he
  · simp at he
  · split at he
    · simp at he
    · rw [mem_runAll] at he
      obtain ⟨kv, _, hkv⟩ := he
      exact not_isReset_processSecretEntry env cfg s kv.1 kv.2 e hkv

theorem not_isReset_processConfigMapEntry (env : ClusterEnv) (cfg : ConfigMapCheckerCfg)
    (cm : GoConfigMap) (name bytes : String) (e : ExpCall)
    (he : e ∈ (processConfigMapEntry env cfg cm name bytes).1) : isReset e = false := by
  unfold processConfigMapEntry at he
  by_cases h : (evalGlobs env.globMatch cfg.includeConfigMapsDataGlobs name).1
      && !(evalGlobs env.globMatch cfg.excludeConfigMapsDataGlobs name).1
  · simp only [h, if_true, List.mem_singleton] at he
    subst he
    rfl
  · simp [h] at he

theorem not_isReset_processConfigMap (env : ClusterEnv) (cfg : ConfigMapCheckerCfg)
    (cm : GoConfigMap) (e : ExpCall) (he : e ∈ (processConfigMap env cfg cm).1) :
    isReset e = false := by
  unfold processConfigMap at he
  split at he
  · simp at he
  · rw [mem_runAll] at he
    obtain ⟨kv, _, hkv⟩ := he
    exact not_isReset_processConfigMapEntry env cfg cm kv.1 kv.2 e hkv

theorem collectLoop_eq {σ : Type} (list : String → Option String → Except Unit (List σ))
    (labelSelectors : List String) (namespaces : List String) :
    runAll (fun ns =>
        if labelSelectors.length > 0 then
          runAll (fun sel => listOutcome (list ns (some sel))) labelSelectors
        else listOutcome (list ns none)) namespaces
      = (((listCombos namespaces labelSelectors).map
            (fun c => (listOutcome (list c.1 c.2)).1)).flatten,
         ((listCombos namespaces labelSelectors).map
            (fun c => (listOutcome (list c.1 c.2)).2)).sum) := by
  induction namespaces with
  | nil => simp [runAll, listCombos]
  | cons ns rest ih =>
    rw [runAll_eq] at ih ⊢
    simp only [List.map_cons, List.flatten_cons, List.sum_cons, listCombos,
      List.flatMap_cons, List.map_append, List.flatten_append, List.sum_append]
    rw [Prod.mk.injEq] at ih ⊢
    unfold listCombos at ih
    refine ⟨?_, ?_⟩
    · rw [ih.1]
      by_cases h : labelSelectors.length > 0
      · simp only [h, if_true, runAll_eq, List.map_map]
        rfl
      · simp [h]
    · rw [ih.2]
      by_cases h : labelSelectors.length > 0
      · simp only [h, if_true, runAll_eq, List.map_map]
        rfl
      · simp [h]

theorem collectSecrets_eq (env : ClusterEnv) (cfg : SecretCheckerCfg) :
    collectSecrets env cfg
      = (((listCombos cfg.namespaces cfg.labelSelectors).map
            (fun c => (listOutcome (env.listSecrets c.1 c.2)).1)).flatten,
         ((listCombos cfg.namespaces cfg.labelSelectors).map
            (fun c => (listOutcome (env.listSecrets c.1 c.2)).2)).sum) :=
  collectLoop_eq env.listSecrets cfg.labelSelectors cfg.namespaces

theorem collectConfigMaps_eq (env : ClusterEnv) (cfg : ConfigMapCheckerCfg) :
    collectConfigMaps env cfg
      = (((listCombos cfg.namespaces cfg.labelSelectors).map
            (fun c => (listOutcome (env.listConfigMaps c.1 c.2)).1)).flatten,
         ((listCombos cfg.namespaces cfg.labelSelectors).map
            (fun c => (listOutcome (env.listConfigMaps c.1 c.2)).2)).sum) :=
  collectLoop_eq env.listConfigMaps cfg.labelSelectors cfg.namespaces

theorem countP_flatten_sum {α : Type} (p : α → Bool) (L : List (List α)) :
    L.flatten.countP p = (L.map (List.countP p)).sum := by
  induction L with
  | nil => simp
  | cons l ls ih => simp [List.countP_append, ih]

/-- C1: in every tick of either checker, ResetMetrics is the first exporter call
and occurs exactly once, so no ExportMetrics call of the tick precedes it. -/
theorem tick_reset_once_before_exports (env : ClusterEnv)
    (scfg : SecretCheckerCfg) (ccfg : ConfigMapCheckerCfg) :
    ((secretTick env scfg).1.head? = some ExpCall.reset
      ∧ (secretTick env scfg).1.countP isReset = 1)
    ∧ ((configMapTick env ccfg).1.head? = some ExpCall.reset
      ∧ (configMapTick env ccfg).1.countP isReset = 1) := by
  refine ⟨⟨rfl, ?_⟩, ⟨rfl, ?_⟩⟩
  · show (ExpCall.reset
        :: (runAll (processSecret env scfg) (collectSecrets env scfg).1).1).countP isReset = 1
    rw [List.countP_cons]
    have h0 : (runAll (processSecret env scfg) (collectSecrets env scfg).1).1.countP isReset
        = 0 := by
      rw [List.countP_eq_zero]
      intro e he
      rw [mem_runAll] at he
      obtain ⟨s, _, hs⟩ := he
      simp [not_isReset_processSecret env scfg s e hs]
    rw [h0]
    rfl
  · show (ExpCall.reset
        :: (runAll (processConfigMap env ccfg) (collectConfigMaps env ccfg).1).1).countP isReset = 1
    rw [List.countP_cons]
    have h0 : (runAll (processConfigMap env ccfg) (collectConfigMaps env ccfg).1).1.countP isReset
        = 0 := by
      rw [List.countP_eq_zero]
      intro e he
      rw [mem_runAll] at he
      obtain ⟨cm, _, hcm⟩ := he
      simp [not_isReset_processConfigMap env ccfg cm e hcm]
    rw [h0]
    rfl

/-- C3: a resource passes the annotation filter iff the selector list is empty
or some selector occurs as an annotation key (its value never read); a resource
failing the filter contributes nothing to the tick. -/
theorem annotation_filter_characterization (selectors : List String)
    (annotations : List (String × String)) (env : ClusterEnv)
    (scfg : SecretCheckerCfg) (ccfg : ConfigMapCheckerCfg) (s : GoSecret) (cm : GoConfigMap) :
    (annotationFilter selectors annotations = true ↔
      (selectors = [] ∨ ∃ sel ∈ selectors, (goLookup annotations sel).isSome = true))
    ∧ (typeFilter scfg.includeSecretsTypes s.secType = true →
        annotationFilter scfg.annotationSelectors s.annotations = false →
        processSecret env scfg s = ([], 0))
    ∧ (annotationFilter ccfg.annotationSelectors cm.annotations = false →
        processConfigMap env ccfg cm = ([], 0)) := by
  refine ⟨?_, ?_, ?_⟩
  · cases selectors with
    | nil => simp [annotationFilter]
    | cons sel rest => simp [annotationFilter, List.any_eq_true]
  · intro ht hf
    unfold processSecret
    rw [ht, hf]
    rfl
  · intro hf
    unfold processConfigMap
    rw [hf]
    rfl

/-- C3 witness: with typeFilter trivially passing and a configured annotation
selector absent from the resource, both checkers skip the resource. -/
theorem annotation_filter_characterization_witness :
    processSecret witEnv witSecretCfgAnn witSecretNoAnn = ([], 0)
    ∧ processConfigMap witEnv witCMCfgAnn witCMNoAnn = ([], 0) :=
  ⟨(annotation_filter_characterization [] [] witEnv witSecretCfgAnn witCMCfgAnn
      witSecretNoAnn witCMNoAnn).2.1 rfl rfl,
   (annotation_filter_characterization [] [] witEnv witSecretCfgAnn witCMCfgAnn
      witSecretNoAnn witCMNoAnn).2.2 rfl⟩

/-- C4: the resolved password is the first non-empty of the ordered stage
results, three stages for Secrets, the two sibling stages for ConfigMaps, with
the empty string as terminal fallback. -/
theorem password_resolution_first_nonempty (env : ClusterEnv)
    (ns resName entryName : String) :
    resolveSecretPassword env ns resName entryName
      = firstNonEmpty [stageSameSecret env ns resName,
          stageSiblingBase env ns resName entryName,
          stageSiblingFull env ns resName entryName]
    ∧ resolveConfigMapPassword env ns resName entryName
      = firstNonEmpty [stageSiblingBase env ns resName entryName,
          stageSiblingFull env ns resName entryName] := by
  constructor
  · simp only [resolveSecretPassword, firstNonEmpty, stageSameSecret, stageSiblingBase,
      stageSiblingFull]
    cases h1 : passwordOrEmpty (getPasswordFromSecret env ns resName "password") == "" with
    | false => simp [h1]
    | true =>
      cases h2 : passwordOrEmpty (getPasswordFromSecret env ns (resName ++ "-password")
          (trimSuffix entryName (pathExt entryName) ++ ".password")) == "" with
      | false => simp [h1, h2]
      | true =>
        simp [h1, h2]
        split <;> simp_all
  · simp only [resolveConfigMapPassword, firstNonEmpty, stageSiblingBase, stageSiblingFull]
    cases h2 : passwordOrEmpty (getPasswordFromSecret env ns (resName ++ "-password")
        (trimSuffix entryName (pathExt entryName) ++ ".password")) == "" with
    | false => simp [h2]
    | true =>
      simp [h2]
      split <;> simp_all

/-- C10: when the stage-1 "password" key is present with an empty value, or its
lookup fails, resolution proceeds through the sibling stages exactly as the
two-stage ConfigMap variant does. -/
theorem empty_password_falls_through (env : ClusterEnv) (ns resName entryName : String)
    (h : getPasswordFromSecret env ns resName "password" = .ok ""
        ∨ isErrE (getPasswordFromSecret env ns resName "password") = true) :
    resolveSecretPassword env ns resName entryName
      = resolveConfigMapPassword env ns resName entryName := by
  have h0 : passwordOrEmpty (getPasswordFromSecret env ns resName "password") = "" := by
    rcases h with h | h
    · rw [h]
      rfl
    · cases hg : getPasswordFromSecret env ns resName "password" with
      | error e => rfl
      | ok p => rw [hg] at h; simp [isErrE] at h
  simp [resolveSecretPassword, resolveConfigMapPassword, h0]

/-- C10 witness: `witSecret` holds "password" with empty bytes, and resolution
agrees with the two-stage ConfigMap variant. -/
theorem empty_password_falls_through_witness :
    resolveSecretPassword witEnv "default" "tls1" "tls.crt"
      = resolveConfigMapPassword witEnv "default" "tls1" "tls.crt" :=
  empty_password_falls_through witEnv "default" "tls1" "tls.crt" (Or.inl rfl)

/-- C2: a data entry is exported iff its name matches at least one include glob
and no exclude glob; with an empty include-glob list the include flag stays
false and nothing is exported. -/
theorem entry_exported_iff_globs (env : ClusterEnv) (scfg : SecretCheckerCfg)
    (ccfg : ConfigMapCheckerCfg) (s : GoSecret) (cm : GoConfigMap) (name bytes : String) :
    ((processSecretEntry env scfg s name bytes).1 ≠ [] ↔
       ((∃ g ∈ scfg.includeSecretsDataGlobs, env.globMatch g name = .ok true)
         ∧ ¬ ∃ g ∈ scfg.excludeSecretsDataGlobs, env.globMatch g name = .ok true))
    ∧ (scfg.includeSecretsDataGlobs = [] →
        (processSecretEntry env scfg s name bytes).1 = [])
    ∧ ((processConfigMapEntry env ccfg cm name bytes).1 ≠ [] ↔
       ((∃ g ∈ ccfg.includeConfigMapsDataGlobs, env.globMatch g name = .ok true)
         ∧ ¬ ∃ g ∈ ccfg.excludeConfigMapsDataGlobs, env.globMatch g name = .ok true))
    ∧ (ccfg.includeConfigMapsDataGlobs = [] →
        (processConfigMapEntry env ccfg cm name bytes).1 = []) := by
  refine ⟨?_, ?_, ?_, ?_⟩
  · rw [← evalGlobs_fst_iff env.globMatch scfg.includeSecretsDataGlobs name,
      ← evalGlobs_fst_iff env.globMatch scfg.excludeSecretsDataGlobs name]
    cases hi : (evalGlobs env.globMatch scfg.includeSecretsDataGlobs name).1 <;>
      cases he : (evalGlobs env.globMatch scfg.excludeSecretsDataGlobs name).1 <;>
        simp [processSecretEntry, hi, he]
  · intro h
    simp [processSecretEntry, h, evalGlobs]
  · rw [← evalGlobs_fst_iff env.globMatch ccfg.includeConfigMapsDataGlobs name,
      ← evalGlobs_fst_iff env.globMatch ccfg.excludeConfigMapsDataGlobs name]
    cases hi : (evalGlobs env.globMatch ccfg.includeConfigMapsDataGlobs name).1 <;>
      cases he : (evalGlobs env.globMatch ccfg.excludeConfigMapsDataGlobs name).1 <;>
        simp [processConfigMapEntry, hi, he]
  · intro h
    simp [processConfigMapEntry, h, evalGlobs]

/-- C2 witness: with empty include-glob lists neither checker exports an entry. -/
theorem entry_exported_iff_globs_witness :
    (processSecretEntry witEnv witSecretCfgNoInc witSecret "tls.crt" "CERTBYTES").1 = []
    ∧ (processConfigMapEntry witEnv witCMCfgNoInc witCM "a.crt" "B").1 = [] :=
  ⟨(entry_exported_iff_globs witEnv witSecretCfgNoInc witCMCfgNoInc witSecret witCM
      "tls.crt" "CERTBYTES").2.1 rfl,
   (entry_exported_iff_globs witEnv witSecretCfgNoInc witCMCfgNoInc witSecret witCM
      "a.crt" "B").2.2.2 rfl⟩

/-- C5 counterexample: the ConfigMap exporter does publish a "serviceline" label
value taken from the labels map, contrary to the claim that its series carry no
such label. -/
theorem configmap_exporter_serviceline_counterexample :
    configMapExportMetrics witEnv.decode "CERTBYTES" "tls.crt" "cm1" "default" ""
        [("serviceline", "payments")]
      = .ok [⟨.cmExpiry, ⟨"tls.crt", "issuerX", "subjectX", "cm1", "default", "payments"⟩, 100⟩,
             ⟨.cmNotAfter, ⟨"tls.crt", "issuerX", "subjectX", "cm1", "default", "payments"⟩, 200⟩]
    := by
  rfl

/-- C5 amended: the two exporter flavors publish identical write sequences up to
renaming the metric family, and every series either flavor publishes carries the
serviceline value looked up in the labels map it was given. -/
theorem exporters_agree_up_to_family
    (decode : String → String → Except Unit (List CertMetric))
    (bytes keyName resName resNs password : String) (labels : List (String × String)) :
    secretExportMetrics decode bytes keyName resName resNs password labels
      = Except.map (List.map relabelToSecret)
          (configMapExportMetrics decode bytes keyName resName resNs password labels)
    ∧ (∀ ws, configMapExportMetrics decode bytes keyName resName resNs password labels
          = .ok ws → ∀ w ∈ ws, w.tuple.serviceline = goLookupD labels "serviceline") := by
  constructor
  · unfold secretExportMetrics configMapExportMetrics
    cases h : decode bytes password with
    | error e => rfl
    | ok ms =>
      simp only [Except.map]
      rw [exportWrites_eq, exportWrites_eq, List.map_flatMap]
      rfl
  · intro ws hws w hw
    unfold configMapExportMetrics at hws
    cases h : decode bytes password with
    | error e => rw [h] at hws; cases hws
    | ok ms =>
      rw [h] at hws
      simp only [Except.ok.injEq] at hws
      subst hws
      exact serviceline_of_mem_exportWrites _ _ _ _ _ _ ms w hw

/-- C5 amended witness: a concrete ConfigMap-exporter write carries the
serviceline value from the labels map. -/
theorem exporters_agree_up_to_family_witness :
    (⟨.cmExpiry, ⟨"tls.crt", "issuerX", "subjectX", "cm1", "default", "payments"⟩,
        100⟩ : GaugeWrite).tuple.serviceline
      = goLookupD [("serviceline", "payments")] "serviceline" :=
  (exporters_agree_up_to_family witEnv.decode "CERTBYTES" "tls.crt" "cm1" "default" ""
      [("serviceline", "payments")]).2
    [⟨.cmExpiry, ⟨"tls.crt", "issuerX", "subjectX", "cm1", "default", "payments"⟩, 100⟩,
     ⟨.cmNotAfter, ⟨"tls.crt", "issuerX", "subjectX", "cm1", "default", "payments"⟩, 200⟩]
    rfl _ (List.mem_cons_self _ _)

/-- C6: in the merged ConfigMap entry map, a key present in both the text and
the binary map carries the binary value. -/
theorem combined_map_binary_overwrites_text (text binary : List (String × String))
    (k vt vb : String) (hnd : (binary.map Prod.fst).Nodup)
    (_ht : goLookup text k = some vt) (hb : goLookup binary k = some vb) :
    goLookup (buildCombinedMap text binary) k = some vb := by
  unfold buildCombinedMap
  exact goLookup_foldl_goInsert binary _ k vb hnd hb

/-- C6 witness: key "a.crt" of `witCM` is in both maps and merges to the binary
value. -/
theorem combined_map_binary_overwrites_text_witness :
    goLookup (buildCombinedMap witCM.data witCM.binaryData) "a.crt" = some "B" :=
  combined_map_binary_overwrites_text witCM.data witCM.binaryData "a.crt" "T" "B"
    (by simp [witCM]) rfl rfl

/-- C7: a tick gathers exactly the successful list results of every
(namespace, selector) combination in order, a failing combination contributing
no items and one error-counter increment, and then processes every gathered
resource; glob and export errors only add to the error counter, so the trace
and the counter are computed compositionally to the end of the tick. -/
theorem tick_error_isolation (env : ClusterEnv) (scfg : SecretCheckerCfg)
    (ccfg : ConfigMapCheckerCfg) :
    collectSecrets env scfg
      = (((listCombos scfg.namespaces scfg.labelSelectors).map
            (fun c => (listOutcome (env.listSecrets c.1 c.2)).1)).flatten,
         ((listCombos scfg.namespaces scfg.labelSelectors).map
            (fun c => (listOutcome (env.listSecrets c.1 c.2)).2)).sum)
    ∧ listOutcome (Except.error () : Except Unit (List GoSecret)) = ([], 1)
    ∧ secretTick env scfg
      = (ExpCall.reset
          :: ((collectSecrets env scfg).1.map
                (fun s => (processSecret env scfg s).1)).flatten,
         (collectSecrets env scfg).2
          + ((collectSecrets env scfg).1.map
                (fun s => (processSecret env scfg s).2)).sum)
    ∧ collectConfigMaps env ccfg
      = (((listCombos ccfg.namespaces ccfg.labelSelectors).map
            (fun c => (listOutcome (env.listConfigMaps c.1 c.2)).1)).flatten,
         ((listCombos ccfg.namespaces ccfg.labelSelectors).map
            (fun c => (listOutcome (env.listConfigMaps c.1 c.2)).2)).sum)
    ∧ listOutcome (Except.error () : Except Unit (List GoConfigMap)) = ([], 1)
    ∧ configMapTick env ccfg
      = (ExpCall.reset
          :: ((collectConfigMaps env ccfg).1.map
                (fun cm => (processConfigMap env ccfg cm).1)).flatten,
         (collectConfigMaps env ccfg).2
          + ((collectConfigMaps env ccfg).1.map
                (fun cm => (processConfigMap env ccfg cm).2)).sum) := by
  refine ⟨collectSecrets_eq env scfg, rfl, ?_, collectConfigMaps_eq env ccfg, rfl, ?_⟩
  · show (ExpCall.reset :: (runAll (processSecret env scfg) (collectSecrets env scfg).1).1,
        (collectSecrets env scfg).2
          + (runAll (processSecret env scfg) (collectSecrets env scfg).1).2) = _
    rw [runAll_eq]
  · show (ExpCall.reset :: (runAll (processConfigMap env ccfg) (collectConfigMaps env ccfg).1).1,
        (collectConfigMaps env ccfg).2
          + (runAll (processConfigMap env ccfg) (collectConfigMaps env ccfg).1).2) = _
    rw [runAll_eq]

/-- C8: ExportMetrics fails iff the decoder fails, writes nothing on failure,
and on success performs exactly two gauge writes per decoded certificate. -/
theorem export_metrics_error_iff
    (decode : String → String → Except Unit (List CertMetric))
    (bytes keyName cmName cmNs password : String) (labels : List (String × String))
    (st : MetricState) :
    (isErrE (configMapExportMetrics decode bytes keyName cmName cmNs password labels)
       = isErrE (decode bytes password))
    ∧ (isErrE (decode bytes password) = true →
        applyExport st (configMapExportMetrics decode bytes keyName cmName cmNs password labels)
          = st)
    ∧ (∀ ms, decode bytes password = .ok ms →
        configMapExportMetrics decode bytes keyName cmName cmNs password labels
          = .ok (ms.flatMap (fun metric =>
              [⟨.cmExpiry, ⟨keyName, metric.issuer, metric.cn, cmName, cmNs,
                  goLookupD labels "serviceline"⟩, metric.durationUntilExpiry⟩,
               ⟨.cmNotAfter, ⟨keyName, metric.issuer, metric.cn, cmName, cmNs,
                  goLookupD labels "serviceline"⟩, metric.notAfter⟩]))
          ∧ (exportWrites .cmExpiry .cmNotAfter keyName cmName cmNs
              (goLookupD labels "serviceline") ms).length = 2 * ms.length) := by
  refine ⟨?_, ?_, ?_⟩
  · unfold configMapExportMetrics
    cases h : decode bytes password with
    | error e => rfl
    | ok ms => rfl
  · intro herr
    unfold applyExport configMapExportMetrics
    cases h : decode bytes password with
    | error e => rfl
    | ok ms => rw [h] at herr; simp [isErrE] at herr
  · intro ms hms
    constructor
    · unfold configMapExportMetrics
      rw [hms]
      simp only
      rw [exportWrites_eq]
    · exact exportWrites_length _ _ _ _ _ _ ms

/-- C8 witness: a failing decode leaves the empty sink unchanged; a one-cert
decode produces two writes. -/
theorem export_metrics_error_iff_witness :
    applyExport [] (configMapExportMetrics witErrEnv.decode "b" "k" "cm" "ns" "" []) = []
    ∧ (exportWrites .cmExpiry .cmNotAfter "tls.crt" "cm1" "default"
        (goLookupD [] "serviceline") [⟨"issuerX", "subjectX", 100, 200⟩]).length
        = 2 * ([(⟨"issuerX", "subjectX", 100, 200⟩ : CertMetric)]).length :=
  ⟨(export_metrics_error_iff witErrEnv.decode "b" "k" "cm" "ns" "" [] []).2.1 rfl,
   ((export_metrics_error_iff witEnv.decode "CERTBYTES" "tls.crt" "cm1" "default" "" [] []).2.2
      [⟨"issuerX", "subjectX", 100, 200⟩] rfl).2⟩

/-- C9: the candidate list is the order-preserving concatenation of every
combination's results, duplicates kept (the per-resource multiplicity is the sum
of the per-combination multiplicities), and a repeated gauge write on the same
family and label tuple is idempotent on the sink. -/
theorem selector_union_no_dedup_and_set_idempotent (env : ClusterEnv)
    (scfg : SecretCheckerCfg) (s : GoSecret) (st : MetricState) (w : GaugeWrite) :
    (collectSecrets env scfg).1.countP (fun x => decide (x = s))
      = (((listCombos scfg.namespaces scfg.labelSelectors).map
            (fun c => (listOutcome (env.listSecrets c.1 c.2)).1.countP
              (fun x => decide (x = s)))).sum)
    ∧ applyWrite (applyWrite st w) w = applyWrite st w := by
  constructor
  · rw [collectSecrets_eq]
    show (((listCombos scfg.namespaces scfg.labelSelectors).map
        (fun c => (listOutcome (env.listSecrets c.1 c.2)).1)).flatten).countP
          (fun x => decide (x = s)) = _
    rw [countP_flatten_sum, List.map_map]
    rfl
  · unfold applyWrite
    exact goInsert_goInsert_self st (w.fam, w.tuple) w.value

end CertExporter
